import Mathlib

/-!
Shallow embedding of the LogicMaster-AI frontend code that the spec claims
speak about: the demo fallback layer in `src/frontend/src/lib/api.ts` and
`demo-data.ts`, the session-statistics store in
`src/frontend/src/store/useAuthStore.ts`, and the dashboard progress
computation.  TypeScript `number` values are modelled as rationals (`ℚ`);
`Math.round` is JavaScript rounding (half-up, `⌊x + 1/2⌋`), returning an
integer.  Counters that the code only ever increments by 1 from 0 are
modelled as `ℕ`.
-/

/-- JavaScript `Math.round`: rounds half-up, `Math.round x = ⌊x + 1/2⌋`.
Stated with the executable `Rat.floor`; `jsRound_eq_floor` relates it to `⌊⌋`. -/
def jsRound (x : ℚ) : ℤ := Rat.floor (x + 1/2)

lemma jsRound_eq_floor (x : ℚ) : jsRound x = ⌊x + 1/2⌋ := by
  rw [jsRound, Rat.floor_def, Rat.floor_def']

/-- `NextQuestionResponse` from `src/frontend/src/lib/api.ts` (lines 32-42).
The `correct_answer` field is the answer key letter A-E. -/
structure NextQuestionResponse where
  question_id : String
  question_type : String
  difficulty : String
  stimulus : String
  question : String
  choices : List String
  skills : List String
  elo_difficulty : ℚ
  correct_answer : String
deriving Repr, DecidableEq

/-- `ThetaResponse` from `src/frontend/src/lib/api.ts` (lines 44-47). -/
structure ThetaResponse where
  new_theta : ℚ
  gmat_score : ℤ
deriving Repr, DecidableEq

/-- `ReviewItem` from `src/frontend/src/lib/api.ts` (lines 70-79); the
optional TypeScript fields are `Option`s. -/
structure ReviewItem where
  question_id : String
  question_type : Option String
  difficulty : Option String
  stimulus_preview : Option String
  recall_probability : ℚ
  half_life : ℚ
  elapsed_days : ℚ
  skills : Option (List String)
deriving Repr, DecidableEq

/-- `ReviewScheduleResponse` from `src/frontend/src/lib/api.ts` (lines 81-86). -/
structure ReviewScheduleResponse where
  user_id : String
  threshold : ℚ
  due_count : ℕ
  reviews : List ReviewItem
deriving Repr, DecidableEq

/-- Entry of `DashboardSummary.weak_skills` in `src/frontend/src/lib/api.ts`. -/
structure WeakSkill where
  skill_name : String
  error_rate : ℚ
  mastery : ℚ
deriving Repr, DecidableEq

/-- `DashboardSummary` from `src/frontend/src/lib/api.ts` (lines 88-100). -/
structure DashboardSummary where
  today_goal : ℚ
  today_completed : ℚ
  streak_days : ℚ
  current_theta : ℚ
  gmat_score : ℚ
  accuracy_pct : ℚ
  total_questions : ℚ
  weak_skills : List WeakSkill
  reviews_due : ℚ
  last_practiced : String
  last_7_days : List Bool
deriving Repr, DecidableEq

/-- First entry of `DEMO_QUESTIONS` in `demo-data.ts` (src/unnamed/part_003,
lines 4-20). -/
def demoQuestion1 : NextQuestionResponse :=
  { question_id := "demo001"
  , question_type := "Weaken"
  , difficulty := "Medium"
  , stimulus := "A pharmaceutical company recently conducted a study showing that patients who took their new drug, Cardiflex, experienced a 30% reduction in heart attacks compared to those who took a placebo. The company concluded that Cardiflex is effective at preventing heart attacks and should be prescribed widely to at-risk patients."
  , question := "Which of the following, if true, most seriously weakens the company\x27s conclusion?"
  , choices :=
      [ "A. The study was funded entirely by the pharmaceutical company that manufactures Cardiflex."
      , "B. Patients in the study who took Cardiflex also adopted healthier diets and exercise routines during the trial period."
      , "C. Cardiflex has fewer side effects than most other heart medications currently on the market."
      , "D. The placebo group had a slightly higher average age than the Cardiflex group."
      , "E. Other pharmaceutical companies are developing similar drugs that may compete with Cardiflex." ]
  , skills := ["Critical Reasoning", "Causal Logic"]
  , elo_difficulty := 45/100
  , correct_answer := "B" }

/-- Second entry of `DEMO_QUESTIONS` in `demo-data.ts` (src/unnamed/part_003,
lines 21-37). -/
def demoQuestion2 : NextQuestionResponse :=
  { question_id := "demo002"
  , question_type := "Strengthen"
  , difficulty := "Hard"
  , stimulus := "City officials argue that installing speed cameras on Highway 9 will reduce the number of traffic accidents. They point to a neighboring city where speed cameras were installed last year, after which accidents declined by 20%."
  , question := "Which of the following, if true, most strengthens the officials\x27 argument?"
  , choices :=
      [ "A. Highway 9 has a higher speed limit than the road in the neighboring city."
      , "B. The neighboring city did not implement any other traffic safety measures during the same period."
      , "C. Speed cameras are expensive to install and maintain."
      , "D. Traffic volume on Highway 9 has been increasing steadily over the past five years."
      , "E. Some drivers may slow down only in the immediate vicinity of the cameras." ]
  , skills := ["Critical Reasoning", "Evidence Evaluation"]
  , elo_difficulty := 65/100
  , correct_answer := "B" }

/-- `DEMO_QUESTIONS` from `demo-data.ts` (src/unnamed/part_003, lines 3-38). -/
def DEMO_QUESTIONS : List NextQuestionResponse := [demoQuestion1, demoQuestion2]

/-- `getNextDemoQuestion` from `demo-data.ts` (lines 40-46).  The module-level
mutable counter `demoIndex` is passed in and out explicitly: the function
returns `DEMO_QUESTIONS[demoIndex % DEMO_QUESTIONS.length]` and increments
the counter.  The index is always in bounds because the bank is non-empty. -/
def getNextDemoQuestion (demoIndex : ℕ) : NextQuestionResponse × ℕ :=
  (DEMO_QUESTIONS.get ⟨demoIndex % DEMO_QUESTIONS.length, Nat.mod_lt _ (by decide)⟩,
   demoIndex + 1)

/-- Errors at the api layer.  `NotFoundError` is the failure the spec says a
next-item request must surface when nothing can be served; an HTTP failure of
`request` is thrown as `Error` with the status (api.ts line 17). -/
inductive ApiError
  | NotFoundError
  | httpError (status : ℕ)
deriving Repr, DecidableEq

/-- The module-level mutable demo state of `api.ts` / `demo-data.ts`: the
`_isDemoMode` flag (api.ts line 6) and the `demoIndex` counter
(demo-data.ts line 40), passed explicitly. -/
structure DemoState where
  isDemoMode : Bool
  demoIndex : ℕ
deriving Repr, DecidableEq

/-- The `catch` branch of `api.nextQuestion` (api.ts lines 207-210): on any
failure of the backend request it sets `_isDemoMode = true` and returns
`getNextDemoQuestion()`.  An `Except.error` result would model an exception
propagating to the caller; the catch block returns normally, so the result
is always `Except.ok`. -/
def nextQuestionOnError (s : DemoState) : Except ApiError NextQuestionResponse × DemoState :=
  let (q, i) := getNextDemoQuestion s.demoIndex
  (Except.ok q, { isDemoMode := true, demoIndex := i })

/-- The demo fallback of `api.updateTheta` (api.ts lines 213-224): on backend
failure, `delta = isCorrect ? 0.08 : -0.05`, `new_theta = currentTheta + delta`
(no clamp), `gmat_score = Math.round(550 + (currentTheta + delta) * 100)`.
The `questionDifficulty` argument is accepted but unused, exactly as in the
source. -/
def updateThetaFallback (currentTheta : ℚ) (questionDifficulty : ℚ) (isCorrect : Bool) :
    ThetaResponse :=
  let delta : ℚ := if isCorrect then 8/100 else -(5/100)
  { new_theta := currentTheta + delta
  , gmat_score := jsRound (550 + (currentTheta + delta) * 100) }

/-- `DEMO_REVIEW_SCHEDULE` from `demo-data.ts` (src/unnamed/part_003,
lines 53-63). -/
def DEMO_REVIEW_SCHEDULE : ReviewScheduleResponse :=
  { user_id := "default"
  , threshold := 1/2
  , due_count := 4
  , reviews :=
      [ { question_id := "demo001", question_type := some "Weaken"
        , difficulty := some "hard"
        , stimulus_preview := some "A study found that employees who work from home report higher job satisfaction..."
        , recall_probability := 25/100, half_life := 3/2, elapsed_days := 42/10
        , skills := some ["Causal Reasoning"] }
      , { question_id := "demo002", question_type := some "Assumption"
        , difficulty := some "medium"
        , stimulus_preview := some "The city council noted that after installing new traffic cameras at major intersections..."
        , recall_probability := 42/100, half_life := 2, elapsed_days := 31/10
        , skills := some ["Assumption Identification"] }
      , { question_id := "demo003", question_type := some "Strengthen"
        , difficulty := some "easy"
        , stimulus_preview := some "Researchers found that students who participated in daily meditation sessions..."
        , recall_probability := 68/100, half_life := 5, elapsed_days := 25/10
        , skills := some ["Evidence Evaluation"] }
      , { question_id := "demo004", question_type := some "Inference"
        , difficulty := some "hard"
        , stimulus_preview := some "A pharmaceutical company reported that its new drug reduced symptoms in 70% of patients..."
        , recall_probability := 15/100, half_life := 8/10, elapsed_days := 5
        , skills := some ["Logical Structure"] } ] }

/-- The `catch` branch of `api.reviewSchedule` (api.ts lines 291-298): on
backend failure it returns `DEMO_REVIEW_SCHEDULE`, ignoring both the user id
and the requested threshold. -/
def reviewScheduleFallback (userId : String) (threshold : ℚ) : ReviewScheduleResponse :=
  DEMO_REVIEW_SCHEDULE

/-- `DEMO_DASHBOARD` from `api.ts` (lines 149-161), the dashboard fallback. -/
def DEMO_DASHBOARD : DashboardSummary :=
  { today_goal := 5
  , today_completed := 0
  , streak_days := 0
  , current_theta := 0
  , gmat_score := 25
  , accuracy_pct := 0
  , total_questions := 0
  , weak_skills := []
  , reviews_due := 0
  , last_practiced := ""
  , last_7_days := [false, false, false, false, false, false, false] }

/-- The today-progress computation of the Dashboard page (src/unnamed/part_001,
line 44): `d.today_goal > 0 ? Math.min((d.today_completed / d.today_goal) * 100, 100) : 0`. -/
def progressPct (d : DashboardSummary) : ℚ :=
  if 0 < d.today_goal then min (d.today_completed / d.today_goal * 100) 100 else 0

/-- The slice of the `useAppStore` state touched by `recordAnswer`
(src/frontend/src/store/useAuthStore.ts).  The counters are only ever 0 or
incremented by 1, so they are `ℕ`; `accuracy` is the result of `Math.round`,
an integer. -/
structure SessionStats where
  totalCorrect : ℕ
  totalAnswered : ℕ
  accuracy : ℤ
  streak : ℕ
deriving Repr, DecidableEq

/-- Initial store values (useAuthStore.ts: `accuracy: 0, totalCorrect: 0,
totalAnswered: 0, streak: 0`). -/
def initialSessionStats : SessionStats :=
  { totalCorrect := 0, totalAnswered := 0, accuracy := 0, streak := 0 }

/-- `recordAnswer` from `useAuthStore.ts` (lines 228-238): bumps the totals,
recomputes `accuracy = Math.round((totalCorrect / totalAnswered) * 100)` and
sets `streak = correct ? streak + 1 : 0`. -/
def recordAnswer (s : SessionStats) (correct : Bool) : SessionStats :=
  let totalCorrect := s.totalCorrect + (if correct then 1 else 0)
  let totalAnswered := s.totalAnswered + 1
  { totalCorrect := totalCorrect
  , totalAnswered := totalAnswered
  , accuracy := jsRound ((totalCorrect : ℚ) / (totalAnswered : ℚ) * 100)
  , streak := if correct then s.streak + 1 else 0 }

/-- The store state after a sequence of `recordAnswer` calls from the initial
state, in call order. -/
def runAnswers (answers : List Bool) : SessionStats :=
  answers.foldl recordAnswer initialSessionStats

/-- Length of the trailing run of correct answers of a call sequence. -/
def trailingCorrect (answers : List Bool) : ℕ :=
  (answers.reverse.takeWhile (fun b => b)).length

/-- The value of the `demoIndex` counter before the k-th call (counting from
0 since module load) of `getNextDemoQuestion`. -/
def demoCallState : ℕ → ℕ
  | 0 => 0
  | k + 1 => (getNextDemoQuestion (demoCallState k)).2

/-- The question returned by the k-th call of `getNextDemoQuestion` since
module load. -/
def demoCallResult (k : ℕ) : NextQuestionResponse :=
  (getNextDemoQuestion (demoCallState k)).1

/-! ### Helper lemmas -/

lemma jsRound_mono {x y : ℚ} (h : x ≤ y) : jsRound x ≤ jsRound y := by
  rw [jsRound_eq_floor, jsRound_eq_floor]
  exact Int.floor_le_floor (by linarith)

lemma jsRound_nonneg {x : ℚ} (h : 0 ≤ x) : 0 ≤ jsRound x := by
  rw [jsRound_eq_floor]
  exact Int.le_floor.mpr (by linarith)

lemma jsRound_le_hundred {x : ℚ} (h : x ≤ 100) : jsRound x ≤ 100 := by
  rw [jsRound_eq_floor]
  have : (⌊x + 1/2⌋ : ℤ) < 101 := Int.floor_lt.mpr (by norm_num; linarith)
  omega

lemma getPair {α : Type} (a b : α) (f : Fin 2) :
    [a, b].get f = if (f : ℕ) = 0 then a else b := by
  rcases f with ⟨n, hn⟩
  interval_cases n <;> rfl

lemma getNextDemoQuestion_fst (i : ℕ) :
    (getNextDemoQuestion i).1 = if i % 2 = 0 then demoQuestion1 else demoQuestion2 := by
  exact getPair demoQuestion1 demoQuestion2 ⟨i % 2, Nat.mod_lt _ (by norm_num)⟩

lemma demoCallState_eq (k : ℕ) : demoCallState k = k := by
  induction k with
  | zero => rfl
  | succ k ih => simp [demoCallState, getNextDemoQuestion, ih]

lemma demoCallResult_eq (k : ℕ) :
    demoCallResult k = if k % 2 = 0 then demoQuestion1 else demoQuestion2 := by
  rw [demoCallResult, demoCallState_eq, getNextDemoQuestion_fst]

lemma updateThetaFallback_new_theta (t d : ℚ) (c : Bool) :
    (updateThetaFallback t d c).new_theta = t + if c then 8/100 else -(5/100) := rfl

lemma updateThetaFallback_gmat_score (t d : ℚ) (c : Bool) :
    (updateThetaFallback t d c).gmat_score
      = jsRound (550 + (t + if c then 8/100 else -(5/100)) * 100) := rfl

lemma jsRound_eq_of (x : ℚ) (n : ℤ) (h1 : (n : ℚ) ≤ x + 1/2) (h2 : x + 1/2 < n + 1) :
    jsRound x = n := by
  rw [jsRound_eq_floor]
  exact Int.floor_eq_iff.mpr ⟨h1, by linarith⟩

lemma runAnswers_append (bs : List Bool) (b : Bool) :
    runAnswers (bs ++ [b]) = recordAnswer (runAnswers bs) b := by
  simp [runAnswers, List.foldl_append]

lemma recordAnswer_totalAnswered (s : SessionStats) (b : Bool) :
    (recordAnswer s b).totalAnswered = s.totalAnswered + 1 := rfl

lemma recordAnswer_totalCorrect (s : SessionStats) (b : Bool) :
    (recordAnswer s b).totalCorrect = s.totalCorrect + (if b then 1 else 0) := rfl

lemma recordAnswer_streak (s : SessionStats) (b : Bool) :
    (recordAnswer s b).streak = if b then s.streak + 1 else 0 := rfl

lemma recordAnswer_accuracy (s : SessionStats) (b : Bool) :
    (recordAnswer s b).accuracy
      = jsRound (((s.totalCorrect + (if b then 1 else 0) : ℕ) : ℚ)
          / ((s.totalAnswered + 1 : ℕ) : ℚ) * 100) := rfl

lemma runAnswers_totalAnswered (bs : List Bool) :
    (runAnswers bs).totalAnswered = bs.length := by
  induction bs using List.reverseRecOn with
  | nil => rfl
  | append_singleton bs b ih =>
      rw [runAnswers_append, recordAnswer_totalAnswered, ih]
      simp

lemma runAnswers_totalCorrect (bs : List Bool) :
    (runAnswers bs).totalCorrect = bs.count true := by
  induction bs using List.reverseRecOn with
  | nil => rfl
  | append_singleton bs b ih =>
      rw [runAnswers_append, recordAnswer_totalCorrect, ih, List.count_append]
      cases b <;> simp

lemma trailingCorrect_append (bs : List Bool) (b : Bool) :
    trailingCorrect (bs ++ [b]) = if b then trailingCorrect bs + 1 else 0 := by
  cases b <;> simp [trailingCorrect, List.reverse_append]

lemma runAnswers_streak (bs : List Bool) :
    (runAnswers bs).streak = trailingCorrect bs := by
  induction bs using List.reverseRecOn with
  | nil => rfl
  | append_singleton bs b ih =>
      rw [runAnswers_append, recordAnswer_streak, trailingCorrect_append]
      cases b <;> simp [ih]

lemma runAnswers_accuracy (bs : List Bool) (b : Bool) :
    (runAnswers (bs ++ [b])).accuracy
      = jsRound (((runAnswers (bs ++ [b])).totalCorrect : ℚ)
          / ((runAnswers (bs ++ [b])).totalAnswered : ℚ) * 100) := by
  rw [runAnswers_append, recordAnswer_accuracy, recordAnswer_totalCorrect,
    recordAnswer_totalAnswered]

lemma demoQuestion1_ne_demoQuestion2 : demoQuestion1 ≠ demoQuestion2 :=
  fun h => absurd (congrArg NextQuestionResponse.question_id h) (by decide)

/-! ### Claims -/

/-- C1, counterexample: the claim says the item returned to the caller has its
correct-answer field stripped.  On the demo fallback path, the very first
served item (`demoIndex = 0`) carries `correct_answer = "B"`, not an
empty/absent field: the caller receives the answer key. -/
theorem C1_answer_not_stripped_cex :
    (getNextDemoQuestion 0).1.correct_answer = "B" ∧
    ¬ (getNextDemoQuestion 0).1.correct_answer = "" := by
  decide

/-- C1, amended: every item served by the demo fallback path carries a
populated `correct_answer` field (the letter "B" for both shipped demo
questions); the caller receives the correct answer rather than a stripped
item, and the Practice page grades the learner locally against it. -/
theorem C1_demo_answer_key_served (demoIndex : ℕ) :
    (getNextDemoQuestion demoIndex).1.correct_answer = "B" ∧
    (getNextDemoQuestion demoIndex).1.correct_answer ≠ "" := by
  rw [getNextDemoQuestion_fst]
  rcases Nat.mod_two_eq_zero_or_one demoIndex with h | h <;> rw [h] <;> decide

/-- C2, counterexample: the claim says the theta update always returns a value
within [-3.0, 3.0].  `updateTheta`'s fallback at `currentTheta = 3` with a
correct answer returns `3.08 = 77/25 > 3`. -/
theorem C2_theta_exceeds_bound_cex :
    (updateThetaFallback 3 0 true).new_theta = 77/25 ∧
    ¬ (updateThetaFallback 3 0 true).new_theta ≤ 3 := by
  rw [updateThetaFallback_new_theta]
  norm_num

/-- C2, amended: the fallback update applies the unclamped step `+0.08` on
correct and `-0.05` on incorrect, so its output lies within [-3.0, 3.0] only
when the input theta lies in the shrunken interval; for every theta in
[-2.95, 2.92] the output is within [-3.0, 3.0] for either correctness
value. -/
theorem C2_theta_bounded_on_interior (t d : ℚ) (c : Bool)
    (h1 : -(59/20) ≤ t) (h2 : t ≤ 73/25) :
    -3 ≤ (updateThetaFallback t d c).new_theta ∧
    (updateThetaFallback t d c).new_theta ≤ 3 := by
  rw [updateThetaFallback_new_theta]
  cases c <;> simp only [if_true, if_false, Bool.false_eq_true] <;>
    constructor <;> linarith

/-- C2, witness: the amended bound instantiated at theta 0 with a correct
answer. -/
theorem C2_theta_bounded_on_interior_witness :
    (-(59/20) : ℚ) ≤ 0 ∧ (0 : ℚ) ≤ 73/25 ∧
    (-3 ≤ (updateThetaFallback 0 1 true).new_theta ∧
     (updateThetaFallback 0 1 true).new_theta ≤ 3) :=
  ⟨by norm_num, by norm_num,
   C2_theta_bounded_on_interior 0 1 true (by norm_num) (by norm_num)⟩

/-- C3, counterexample: the claim says a next-item request that cannot be
served by the backend fails with `NotFoundError`.  The catch branch of
`api.nextQuestion` instead returns the first demo question: at demo state
(`_isDemoMode = false`, `demoIndex = 0`), the result is `ok demoQuestion1`,
not an error. -/
theorem C3_error_swallowed_cex :
    (nextQuestionOnError ⟨false, 0⟩).1 = Except.ok demoQuestion1 ∧
    (nextQuestionOnError ⟨false, 0⟩).1 ≠ Except.error ApiError.NotFoundError :=
  ⟨rfl, fun h => Except.noConfusion h⟩

/-- C3, amended: when the backend request fails, `api.nextQuestion` never
propagates any failure (in particular never `NotFoundError`): from every demo
state it silently returns a demo question and switches demo mode on. -/
theorem C3_next_question_never_fails (s : DemoState) :
    (∃ q, (nextQuestionOnError s).1 = Except.ok q) ∧
    (nextQuestionOnError s).1 ≠ Except.error ApiError.NotFoundError ∧
    (nextQuestionOnError s).2.isDemoMode = true :=
  ⟨⟨(getNextDemoQuestion s.demoIndex).1, rfl⟩, fun h => Except.noConfusion h, rfl⟩

/-- C5, counterexample: the claim says the theta-to-score mapping never leaves
the bounded scale (20-51) and saturates at its bounds.  The fallback score at
theta 0 with a correct answer is `round(550 + 0.08 * 100) = 558`, far outside
[20, 51]. -/
theorem C5_score_outside_scale_cex :
    (updateThetaFallback 0 0 true).gmat_score = 558 ∧
    ¬ (updateThetaFallback 0 0 true).gmat_score ≤ 51 := by
  have h : (updateThetaFallback 0 0 true).gmat_score = 558 := by
    rw [updateThetaFallback_gmat_score]
    exact jsRound_eq_of _ 558 (by norm_num) (by norm_num)
  exact ⟨h, by rw [h]; norm_num⟩

/-- C5, amended: the fallback mapping `theta ↦ round(550 + (theta + delta) * 100)`
is non-decreasing in theta, but it is unbounded and does not saturate at the
20-51 scale bounds. -/
theorem C5_score_monotone (t1 t2 d : ℚ) (c : Bool) (h : t1 ≤ t2) :
    (updateThetaFallback t1 d c).gmat_score ≤ (updateThetaFallback t2 d c).gmat_score := by
  rw [updateThetaFallback_gmat_score, updateThetaFallback_gmat_score]
  apply jsRound_mono
  cases c <;> simp only [if_true, if_false, Bool.false_eq_true] <;> linarith

/-- C5, witness: monotonicity instantiated at theta 0 ≤ 1. -/
theorem C5_score_monotone_witness :
    (0 : ℚ) ≤ 1 ∧
    (updateThetaFallback 0 (1/2) true).gmat_score ≤
      (updateThetaFallback 1 (1/2) true).gmat_score :=
  ⟨by norm_num, C5_score_monotone 0 1 (1/2) true (by norm_num)⟩

/-- C6, counterexample: the claim says the update step is proportional to the
item information at the current theta, larger when the item is informative and
smaller at the extremes.  The fallback step on a correct answer is `0.08` both
at the central theta 0 (difficulty 0) and at the extreme theta 2.9 (difficulty
1.5): the step is constant, not information-scaled. -/
theorem C6_constant_step_cex :
    (updateThetaFallback 0 0 true).new_theta - 0 = 8/100 ∧
    (updateThetaFallback (29/10) (3/2) true).new_theta - 29/10 = 8/100 := by
  rw [updateThetaFallback_new_theta, updateThetaFallback_new_theta]
  norm_num

/-- C6, amended: the fallback update does move theta toward the observed
outcome (strictly up on correct, strictly down on incorrect), but with the
constant step `+0.08` / `-0.05`, independent of the question difficulty and
of any item information. -/
theorem C6_directional_constant_step (t d : ℚ) :
    (updateThetaFallback t d true).new_theta = t + 8/100 ∧
    (updateThetaFallback t d false).new_theta = t - 5/100 ∧
    t < (updateThetaFallback t d true).new_theta ∧
    (updateThetaFallback t d false).new_theta < t := by
  refine ⟨by rw [updateThetaFallback_new_theta]; norm_num, ?_, ?_, ?_⟩
  · rw [updateThetaFallback_new_theta]; norm_num; ring
  · rw [updateThetaFallback_new_theta]; norm_num
  · rw [updateThetaFallback_new_theta]; norm_num

/-- C7: the theta update is deterministic — two invocations with identical
inputs return identical outputs (both `new_theta` and `gmat_score`) — and the
step is bounded by `0.08` in absolute value, so a single update never
diverges. -/
theorem C7_deterministic_bounded_step (t1 t2 d1 d2 : ℚ) (c1 c2 : Bool)
    (h1 : t1 = t2) (h2 : d1 = d2) (h3 : c1 = c2) :
    updateThetaFallback t1 d1 c1 = updateThetaFallback t2 d2 c2 ∧
    |(updateThetaFallback t1 d1 c1).new_theta - t1| ≤ 8/100 := by
  subst h1; subst h2; subst h3
  refine ⟨rfl, ?_⟩
  rw [updateThetaFallback_new_theta, add_sub_cancel_left]
  cases c1 <;> norm_num [abs_le]

/-- C7, witness: determinism and the step bound instantiated at theta 0,
difficulty 1, correct. -/
theorem C7_deterministic_bounded_step_witness :
    ((0 : ℚ) = 0) ∧ ((1 : ℚ) = 1) ∧ (true = true) ∧
    (updateThetaFallback 0 1 true = updateThetaFallback 0 1 true ∧
     |(updateThetaFallback 0 1 true).new_theta - 0| ≤ 8/100) :=
  ⟨rfl, rfl, rfl, C7_deterministic_bounded_step 0 0 1 1 true true rfl rfl rfl⟩

/-- C4, counterexample: the claim says every due-reviews result contains only
items with recall probability below the threshold, strictly ordered ascending.
The fallback result for threshold 0.5 has recall probabilities
[0.25, 0.42, 0.68, 0.15]: it contains 0.68 ≥ 0.5, and the sequence is not
ascending (0.68 is followed by 0.15). -/
theorem C4_schedule_violations_cex :
    ((reviewScheduleFallback "default" (1/2)).reviews.map ReviewItem.recall_probability
       = [25/100, 42/100, 68/100, 15/100]) ∧
    ¬ (∀ p ∈ (reviewScheduleFallback "default" (1/2)).reviews.map
          ReviewItem.recall_probability, p < 1/2) ∧
    ¬ List.Sorted (· < ·)
        ((reviewScheduleFallback "default" (1/2)).reviews.map
          ReviewItem.recall_probability) := by
  have hmap : (reviewScheduleFallback "default" (1/2)).reviews.map
      ReviewItem.recall_probability = [25/100, 42/100, 68/100, 15/100] := by
    simp [reviewScheduleFallback, DEMO_REVIEW_SCHEDULE]
  refine ⟨hmap, ?_, ?_⟩
  · rw [hmap]
    intro hall
    have h68 : (68/100 : ℚ) ∈ ([25/100, 42/100, 68/100, 15/100] : List ℚ) :=
      List.mem_cons_of_mem _ (List.mem_cons_of_mem _ (List.mem_cons_self _ _))
    exact absurd (hall _ h68) (by norm_num)
  · rw [hmap]
    intro hsorted
    simp only [List.sorted_cons, List.mem_cons] at hsorted
    norm_num at hsorted

/-- C4, amended: the review-schedule fallback returns the fixed
`DEMO_REVIEW_SCHEDULE` regardless of the user and threshold arguments; its
recall probabilities are [0.25, 0.42, 0.68, 0.15], which contain an item at
or above the shipped threshold 0.5 and are not in ascending order. -/
theorem C4_fixed_demo_schedule (userId : String) (threshold : ℚ) :
    reviewScheduleFallback userId threshold = DEMO_REVIEW_SCHEDULE ∧
    ((reviewScheduleFallback userId threshold).reviews.map
        ReviewItem.recall_probability = [25/100, 42/100, 68/100, 15/100]) ∧
    (∃ p ∈ (reviewScheduleFallback userId threshold).reviews.map
        ReviewItem.recall_probability,
        (reviewScheduleFallback userId threshold).threshold ≤ p) ∧
    ¬ List.Sorted (· < ·)
        ((reviewScheduleFallback userId threshold).reviews.map
          ReviewItem.recall_probability) := by
  have hmap : (reviewScheduleFallback userId threshold).reviews.map
      ReviewItem.recall_probability = [25/100, 42/100, 68/100, 15/100] := by
    simp [reviewScheduleFallback, DEMO_REVIEW_SCHEDULE]
  refine ⟨rfl, hmap, ?_, ?_⟩
  · refine ⟨68/100, ?_, ?_⟩
    · rw [hmap]
      exact List.mem_cons_of_mem _ (List.mem_cons_of_mem _ (List.mem_cons_self _ _))
    · norm_num [reviewScheduleFallback, DEMO_REVIEW_SCHEDULE]
  · rw [hmap]
    intro hsorted
    simp only [List.sorted_cons, List.mem_cons] at hsorted
    norm_num at hsorted

/-- C8: invariant of the session-statistics store — after every non-empty
sequence of `recordAnswer` calls from the initial state, `totalCorrect` is at
most `totalAnswered`, `streak` is the length of the trailing run of correct
answers, and `accuracy` equals `Math.round(100 * totalCorrect / totalAnswered)`
and lies in [0, 100].  (After the empty sequence all counters are 0 and the
`accuracy` clause is not applicable since `totalAnswered = 0`.) -/
theorem C8_session_stats_invariant (answers : List Bool) (h : answers ≠ []) :
    (runAnswers answers).totalCorrect ≤ (runAnswers answers).totalAnswered ∧
    (runAnswers answers).streak = trailingCorrect answers ∧
    (runAnswers answers).accuracy
      = jsRound (100 * ((runAnswers answers).totalCorrect : ℚ)
          / ((runAnswers answers).totalAnswered : ℚ)) ∧
    0 ≤ (runAnswers answers).accuracy ∧ (runAnswers answers).accuracy ≤ 100 := by
  rcases List.eq_nil_or_concat answers with rfl | ⟨bs, b, rfl⟩
  · exact absurd rfl h
  · simp only [List.concat_eq_append]
    have hle : (runAnswers (bs ++ [b])).totalCorrect
        ≤ (runAnswers (bs ++ [b])).totalAnswered := by
      rw [runAnswers_totalAnswered, runAnswers_totalCorrect]
      exact List.count_le_length _ _
    have hpos : 0 < (runAnswers (bs ++ [b])).totalAnswered := by
      rw [runAnswers_totalAnswered]; simp
    have hacc := runAnswers_accuracy bs b
    have hle' : ((runAnswers (bs ++ [b])).totalCorrect : ℚ)
        / ((runAnswers (bs ++ [b])).totalAnswered : ℚ) ≤ 1 := by
      rw [div_le_one (by exact_mod_cast hpos)]
      exact_mod_cast hle
    refine ⟨hle, runAnswers_streak _, ?_, ?_, ?_⟩
    · rw [hacc]; congr 1; ring
    · rw [hacc]
      exact jsRound_nonneg (mul_nonneg (div_nonneg (by positivity) (by positivity))
        (by norm_num))
    · rw [hacc]
      exact jsRound_le_hundred (by linarith)

/-- C8, witness: the invariant instantiated at the call sequence
[correct, incorrect, correct]. -/
theorem C8_session_stats_invariant_witness :
    ([true, false, true] : List Bool) ≠ [] ∧
    ((runAnswers [true, false, true]).totalCorrect
        ≤ (runAnswers [true, false, true]).totalAnswered ∧
     (runAnswers [true, false, true]).streak = trailingCorrect [true, false, true] ∧
     (runAnswers [true, false, true]).accuracy
       = jsRound (100 * ((runAnswers [true, false, true]).totalCorrect : ℚ)
           / ((runAnswers [true, false, true]).totalAnswered : ℚ)) ∧
     0 ≤ (runAnswers [true, false, true]).accuracy ∧
     (runAnswers [true, false, true]).accuracy ≤ 100) :=
  ⟨by decide, C8_session_stats_invariant [true, false, true] (by decide)⟩

/-- C9, counterexample: the claim says the today-progress percentage lies in
[0, 100] for every `DashboardSummary` input.  With a negative
`today_completed` (-1, goal 5) the computed percentage is -20, below 0: the
guard only protects against a non-positive goal, not a negative completed
count. -/
theorem C9_negative_input_cex :
    progressPct { DEMO_DASHBOARD with today_completed := -1 } = -20 ∧
    ¬ (0 ≤ progressPct { DEMO_DASHBOARD with today_completed := -1 }) := by
  have h : progressPct { DEMO_DASHBOARD with today_completed := -1 } = -20 := by
    rw [progressPct]
    norm_num [DEMO_DASHBOARD, min_def]
  rw [h]
  norm_num

/-- C9, amended: for every `DashboardSummary` with a non-negative
`today_completed`, the today-progress percentage lies in [0, 100]: the
division is guarded (a non-positive `today_goal` yields 0) and the quotient
is capped at 100 even when `today_completed` exceeds `today_goal`. -/
theorem C9_progress_bounded (d : DashboardSummary) (h : 0 ≤ d.today_completed) :
    0 ≤ progressPct d ∧ progressPct d ≤ 100 ∧
    (d.today_goal ≤ 0 → progressPct d = 0) := by
  rw [progressPct]
  split
  · next hg =>
    have hq : 0 ≤ d.today_completed / d.today_goal * 100 :=
      mul_nonneg (div_nonneg h (le_of_lt hg)) (by norm_num)
    exact ⟨le_min hq (by norm_num), min_le_right _ _, fun hle => absurd hg (by linarith)⟩
  · next hg =>
    exact ⟨le_refl 0, by norm_num, fun _ => rfl⟩

/-- C9, witness: the amended bound instantiated at the shipped
`DEMO_DASHBOARD` (goal 5, completed 0). -/
theorem C9_progress_bounded_witness :
    0 ≤ DEMO_DASHBOARD.today_completed ∧
    (0 ≤ progressPct DEMO_DASHBOARD ∧ progressPct DEMO_DASHBOARD ≤ 100 ∧
     (DEMO_DASHBOARD.today_goal ≤ 0 → progressPct DEMO_DASHBOARD = 0)) :=
  ⟨by norm_num [DEMO_DASHBOARD],
   C9_progress_bounded DEMO_DASHBOARD (by norm_num [DEMO_DASHBOARD])⟩

/-- C10: `getNextDemoQuestion` cycles deterministically through the demo
bank — the k-th call since module load returns
`DEMO_QUESTIONS[k mod DEMO_QUESTIONS.length]`, the cycle has period 2, and
two successive calls return different questions (the bank alternates in fixed
order). -/
theorem C10_demo_cycle (k : ℕ) :
    demoCallResult k
      = DEMO_QUESTIONS.get ⟨k % DEMO_QUESTIONS.length, Nat.mod_lt _ (by decide)⟩ ∧
    demoCallResult (k + 2) = demoCallResult k ∧
    demoCallResult k ≠ demoCallResult (k + 1) := by
  refine ⟨?_, ?_, ?_⟩
  · rw [demoCallResult, demoCallState_eq]
    rfl
  · rw [demoCallResult_eq, demoCallResult_eq, Nat.add_mod_right]
  · rw [demoCallResult_eq, demoCallResult_eq]
    rcases Nat.mod_two_eq_zero_or_one k with hk | hk
    · have hk1 : (k + 1) % 2 = 1 := by omega
      rw [hk, hk1]
      norm_num
      exact demoQuestion1_ne_demoQuestion2
    · have hk1 : (k + 1) % 2 = 0 := by omega
      rw [hk, hk1]
      norm_num
      exact fun heq => demoQuestion1_ne_demoQuestion2 heq.symm
